import Mathlib

/-!
Shallow embedding of `src/board/web/twitter.go` (package `web` of the
scoreboard repository) and proofs about its filtering pipeline, message
translation and stream-session lifecycle.

Go strings are modelled as lists of characters; `strings.ToLower` is
modelled by ASCII lowercasing (every string the program compares here is
an ASCII author handle or keyword, and Go's `strings.ToLower` agrees with
ASCII lowercasing on ASCII input).  Machine integers (`int64`) are
modelled by `Int`; none of the verified code performs arithmetic on them.
The `go-twitter` transport is an external collaborator: it appears only
through its results (the outcome of `Streams.Filter`, the outcome of
`Accounts.VerifyCredentials`, and the sequence of messages a stream's
channel yields before it closes).
-/

namespace web

/-- A Go string, modelled as its sequence of characters. -/
abbrev GoStr := List Char

/-- Helper turning a Lean string literal into a `GoStr`. -/
def gs (s : String) : GoStr := s.data

/-- ASCII lowercasing of one character, the action of Go's
`strings.ToLower` on ASCII input: code points 65..90 are shifted by 32,
everything else is unchanged. -/
def lowerChar (c : Char) : Char :=
  if 65 ≤ c.toNat ∧ c.toNat ≤ 90 then Char.ofNat (c.toNat + 32) else c

/-- Model of `strings.ToLower`. -/
def lowerStr (s : GoStr) : GoStr := s.map lowerChar

/-- `leadsWith s p` holds when `p` occurs at the start of `s`
(helper for the substring test below). -/
def leadsWith : GoStr → GoStr → Bool
  | _, [] => true
  | [], _ :: _ => false
  | c :: s, d :: p => c == d && leadsWith s p

/-- Model of `strings.Contains s sub`: `sub` occurs as a contiguous
substring of `s`. -/
def strContains (s sub : GoStr) : Bool :=
  match s with
  | [] => leadsWith [] sub
  | c :: rest => leadsWith (c :: rest) sub || strContains rest sub

/-- The `Filter` struct of twitter.go: five lists of strings. -/
structure Filter where
  Language : List GoStr
  Keywords : List GoStr
  OnlyUsers : List GoStr
  BlockedUsers : List GoStr
  BlockedWords : List GoStr
deriving DecidableEq

/-- `Filter.match` of twitter.go (renamed `matchF`: `match` is a Lean
keyword).  `u` is the author argument, `c` the message text.  The Go
loops that return early on a hit are rendered with `List.any`; the
`len(...) > 0` guards in front of the two blocked-list loops are subsumed
by `List.any` being `false` on `[]`, while the `len(f.OnlyUsers) > 0`
guard is kept because it selects between the allow-list check and the
final `return true`. -/
def Filter.matchF (f : Filter) (u c : GoStr) : Bool :=
  if f.BlockedUsers.any (fun b => lowerStr b == u) then false
  else if f.BlockedWords.any (fun w => strContains c w) then false
  else if 0 < f.OnlyUsers.length then f.OnlyUsers.any (fun o => lowerStr o == u)
  else true

theorem toNat_ofNat_valid (n : Nat) (h : n < 55296) : (Char.ofNat n).toNat = n := by
  have hv : n.isValidChar := Or.inl h
  simp only [Char.ofNat, dif_pos hv]
  simp [Char.ofNatAux, Char.toNat, UInt32.toNat]

theorem lowerChar_idem (c : Char) : lowerChar (lowerChar c) = lowerChar c := by
  unfold lowerChar
  by_cases h : 65 ≤ c.toNat ∧ c.toNat ≤ 90
  · rw [if_pos h]
    have ht : (Char.ofNat (c.toNat + 32)).toNat = c.toNat + 32 :=
      toNat_ofNat_valid _ (by omega)
    rw [if_neg (by omega)]
  · rw [if_neg h, if_neg h]

theorem lowerStr_idem (s : GoStr) : lowerStr (lowerStr s) = lowerStr s := by
  unfold lowerStr
  rw [List.map_map]
  exact List.map_congr_left fun c _ => lowerChar_idem c

/-- Claim C1: for every filter whose blocked-authors and allowed-authors
lists both contain an author `A` (compared case-insensitively), and for
every message text, `Filter.match` applied to `A` returns `false`: the
block-list check runs first and dominates the allow-list check. -/
theorem match_blocked_dominates_allowed (f : Filter) (A t : GoStr)
    (hb : ∃ b ∈ f.BlockedUsers, lowerStr b = lowerStr A)
    (ho : ∃ o ∈ f.OnlyUsers, lowerStr o = lowerStr A) :
    f.matchF A t = false := by
  obtain ⟨b0, hb0, hb0eq⟩ := hb
  obtain ⟨o0, ho0, _⟩ := ho
  unfold Filter.matchF
  by_cases h1 : f.BlockedUsers.any (fun b => lowerStr b == A) = true
  · rw [if_pos h1]
  · rw [if_neg h1]
    have hbne : lowerStr b0 ≠ A := by
      intro hAA
      exact h1 (List.any_eq_true.mpr ⟨b0, hb0, by simpa using hAA⟩)
    have hAne : lowerStr A ≠ A := fun hAA => hbne (hb0eq.trans hAA)
    by_cases h2 : f.BlockedWords.any (fun w => strContains t w) = true
    · rw [if_pos h2]
    · rw [if_neg h2]
      have hlen : 0 < f.OnlyUsers.length :=
        List.length_pos.mpr (List.ne_nil_of_mem ho0)
      rw [if_pos hlen]
      rw [List.any_eq_false]
      intro o ho'
      intro heq
      have hoe : lowerStr o = A := by simpa using heq
      exact hAne (by rw [← hoe, lowerStr_idem])

/-- Concrete filter blocking and allowing variants of the author
used by the C1 witness and the C2 counterexample. -/
def aliceBothFilter : Filter :=
  { Language := [], Keywords := [gs "kw"], OnlyUsers := [gs "Alice"],
    BlockedUsers := [gs "ALICE"], BlockedWords := [] }

theorem match_blocked_dominates_allowed_witness :
    (∃ b ∈ aliceBothFilter.BlockedUsers, lowerStr b = lowerStr (gs "aLiCe")) ∧
    (∃ o ∈ aliceBothFilter.OnlyUsers, lowerStr o = lowerStr (gs "aLiCe")) ∧
    aliceBothFilter.matchF (gs "aLiCe") (gs "hello") = false :=
  ⟨by decide, by decide,
    match_blocked_dominates_allowed aliceBothFilter (gs "aLiCe") (gs "hello")
      (by decide) (by decide)⟩

/-- Concrete filter whose blocked-authors list contains the entry
`"alice"`, for the C2 counterexample. -/
def aliceBlockFilter : Filter :=
  { Language := [], Keywords := [gs "kw"], OnlyUsers := [],
    BlockedUsers := [gs "alice"], BlockedWords := [] }

/-- Claim C2 counterexample: `Filter.match` is not case-insensitive in
its raw first argument.  With `"alice"` in the blocked-authors list,
`match "AlICe" t` returns `true` (the blocked entry is lowercased but the
argument is compared as given), while `match "alice" t` returns `false`. -/
theorem match_raw_case_counterexample :
    aliceBlockFilter.matchF (gs "AlICe") (gs "") = true ∧
    aliceBlockFilter.matchF (gs "alice") (gs "") = false := by
  constructor <;> decide

/-- Claim C2 (amended): the author comparison is case-insensitive once
the author argument is lowercased by the caller, as `Twitter.receive`
always does (`strings.ToLower(x.User.ScreenName)` at line 126): for every
filter and text, `match` applied to the lowercased `"AlICe"` equals
`match` applied to the lowercased `"alice"`. -/
theorem match_lowered_case_insensitive (f : Filter) (t : GoStr) :
    f.matchF (lowerStr (gs "AlICe")) t = f.matchF (lowerStr (gs "alice")) t := by
  have h : lowerStr (gs "AlICe") = lowerStr (gs "alice") := by decide
  rw [h]

/-- Claim C3: for a filter with a non-empty allowed-authors list and
empty blocked-authors and blocked-words lists, and for every lowercased
author handle and message text, `Filter.match` returns `true` iff the
author appears case-insensitively in the allowed-authors list. -/
theorem match_allowlist_iff (f : Filter) (u t : GoStr)
    (honly : f.OnlyUsers ≠ [])
    (hbu : f.BlockedUsers = [])
    (hbw : f.BlockedWords = [])
    (hlow : lowerStr u = u) :
    f.matchF u t = true ↔ ∃ o ∈ f.OnlyUsers, lowerStr o = lowerStr u := by
  have hlen : 0 < f.OnlyUsers.length := List.length_pos.mpr honly
  unfold Filter.matchF
  rw [hbu, hbw]
  simp only [List.any_nil, Bool.false_eq_true, if_false, if_pos hlen]
  rw [List.any_eq_true, hlow]
  constructor
  · rintro ⟨o, ho, hoe⟩
    exact ⟨o, ho, by simpa using hoe⟩
  · rintro ⟨o, ho, hoe⟩
    exact ⟨o, ho, by simpa using hoe⟩

/-- Concrete allow-list-only filter for the C3 witness. -/
def bobOnlyFilter : Filter :=
  { Language := [], Keywords := [gs "kw"], OnlyUsers := [gs "Bob"],
    BlockedUsers := [], BlockedWords := [] }

theorem match_allowlist_iff_witness :
    bobOnlyFilter.matchF (gs "bob") (gs "hi") = true ↔
      ∃ o ∈ bobOnlyFilter.OnlyUsers, lowerStr o = lowerStr (gs "bob") :=
  match_allowlist_iff bobOnlyFilter (gs "bob") (gs "hi")
    (by decide) rfl rfl (by decide)

/-- One entry of `x.Entities.Media` of a raw `twitter.Tweet`: its declared
kind (`Type` in Go, renamed `mtype` since `Type` is a Lean keyword) and
its `MediaURLHttps` URL. -/
structure MediaEntity where
  mtype : GoStr
  MediaURLHttps : GoStr
deriving DecidableEq

/-- The fields of `twitter.User` read by `Twitter.receive`. -/
structure RawUser where
  ScreenName : GoStr
  Name : GoStr
  ProfileImageURLHttps : GoStr
deriving DecidableEq

/-- The fields of the raw `twitter.Tweet` read by `Twitter.receive`,
plus its `CreatedAt` timestamp (present on the wire type, never read by
`receive`). -/
structure RawTweet where
  ID : Int
  Text : GoStr
  CreatedAt : GoStr
  User : RawUser
  Media : List MediaEntity
deriving DecidableEq

/-- The domain `Tweet` struct of twitter.go. -/
structure Tweet where
  ID : Int
  User : GoStr
  Text : GoStr
  Time : Int
  Images : List GoStr
  UserName : GoStr
  UserPhoto : GoStr
deriving DecidableEq

/-- The image-extraction loop of `Twitter.receive` (lines 137-144):
when media entities are attached, collect `MediaURLHttps` of every entity
whose type is `"photo"`, in order; otherwise the `Images` slice stays
`nil` (modelled as `[]`). -/
def extractImages (ms : List MediaEntity) : List GoStr :=
  if 0 < ms.length then
    ms.foldl (fun r m => if m.mtype == gs "photo" then r ++ [m.MediaURLHttps] else r) []
  else []

/-- The record built by `Twitter.receive` (lines 130-136).  The Go
composite literal omits the `Time` field, so it keeps the `int64` zero
value. -/
def buildTweet (x : RawTweet) : Tweet :=
  { ID := x.ID
    User := x.User.ScreenName
    Text := x.Text
    Time := 0
    Images := extractImages x.Media
    UserName := x.User.Name
    UserPhoto := x.User.ProfileImageURLHttps }

/-- `Twitter.receive` as a function from the session's filter and the
raw message to the record it builds: `none` when the filter is present
and rejects the lowercased screen name and text (the message is dropped
before any record is built). -/
def receive (flt : Option Filter) (x : RawTweet) : Option Tweet :=
  match flt with
  | some f =>
    if f.matchF (lowerStr x.User.ScreenName) x.Text then some (buildTweet x) else none
  | none => some (buildTweet x)

theorem receive_eq_some (flt : Option Filter) (x : RawTweet) (r : Tweet)
    (h : receive flt x = some r) : r = buildTweet x := by
  cases flt with
  | none => exact (Option.some_inj.mp h).symm
  | some f =>
    simp only [receive] at h
    by_cases hm : f.matchF (lowerStr x.User.ScreenName) x.Text = true
    · rw [if_pos hm] at h
      exact (Option.some_inj.mp h).symm
    · rw [if_neg hm] at h
      exact absurd h (Option.noConfusion)

theorem extractImages_foldl (ms : List MediaEntity) (acc : List GoStr) :
    ms.foldl (fun r m => if m.mtype == gs "photo" then r ++ [m.MediaURLHttps] else r) acc
      = acc ++ (ms.filter (fun m => m.mtype == gs "photo")).map
          (fun m => m.MediaURLHttps) := by
  induction ms generalizing acc with
  | nil => simp
  | cons m rest ih =>
    rw [List.foldl_cons, List.filter_cons]
    by_cases h : (m.mtype == gs "photo") = true
    · rw [if_pos h, if_pos h, ih]
      simp
    · rw [if_neg h, if_neg h, ih]

theorem extractImages_eq (ms : List MediaEntity) :
    extractImages ms
      = (ms.filter (fun m => m.mtype == gs "photo")).map (fun m => m.MediaURLHttps) := by
  unfold extractImages
  by_cases h : 0 < ms.length
  · rw [if_pos h, extractImages_foldl]
    simp
  · rw [if_neg h]
    have : ms = [] := List.eq_nil_of_length_eq_zero (by omega)
    simp [this]

/-- Claim C4: every record built by `receive` for a message that passes
the filter carries exactly the `MediaURLHttps` URLs of the media entities
whose type is `"photo"`, in their original relative order; other entity
types contribute nothing. -/
theorem receive_images_photo (flt : Option Filter) (x : RawTweet) (r : Tweet)
    (h : receive flt x = some r) :
    r.Images = (x.Media.filter (fun m => m.mtype == gs "photo")).map
      (fun m => m.MediaURLHttps) := by
  rw [receive_eq_some flt x r h]
  exact extractImages_eq x.Media

/-- Concrete raw message with media kinds photo, video, photo, for the
C4 and C10 witnesses. -/
def photoVideoTweet : RawTweet :=
  { ID := 7
    Text := gs "hello"
    CreatedAt := gs "Mon Jan 02 15:04:05 +0000 2006"
    User := { ScreenName := gs "Alice", Name := gs "Alice A",
              ProfileImageURLHttps := gs "avatar" }
    Media := [ { mtype := gs "photo", MediaURLHttps := gs "u1" },
               { mtype := gs "video", MediaURLHttps := gs "u2" },
               { mtype := gs "photo", MediaURLHttps := gs "u3" } ] }

theorem receive_images_photo_witness :
    (buildTweet photoVideoTweet).Images
        = (photoVideoTweet.Media.filter (fun m => m.mtype == gs "photo")).map
            (fun m => m.MediaURLHttps) ∧
      (buildTweet photoVideoTweet).Images = [gs "u1", gs "u3"] :=
  ⟨receive_images_photo none photoVideoTweet (buildTweet photoVideoTweet) rfl,
    by decide⟩

/-- Claim C10: the record built and dispatched by `receive` always has
`Time = 0`: the raw message's `CreatedAt` timestamp is never copied into
the record, even though the domain `Tweet` declares a `Time` field. -/
theorem receive_time_zero (flt : Option Filter) (x : RawTweet) (r : Tweet)
    (h : receive flt x = some r) : r.Time = 0 := by
  rw [receive_eq_some flt x r h]
  rfl

theorem receive_time_zero_witness :
    (buildTweet photoVideoTweet).Time = 0 ∧
      photoVideoTweet.CreatedAt ≠ gs "" :=
  ⟨receive_time_zero none photoVideoTweet (buildTweet photoVideoTweet) rfl,
    by decide⟩

/-- The `Credentials` struct of twitter.go. -/
structure Credentials where
  AccessKey : GoStr
  ConsumerKey : GoStr
  AccessSecret : GoStr
  ConsumerSecret : GoStr
deriving DecidableEq

/-- An opaque code standing for an error produced by the underlying
`go-twitter`/HTTP transport (an external collaborator). -/
abbrev TransportErr := Nat

/-- A live subscription handle (`*twitter.Stream`): its `Messages`
channel is modelled by the finite sequence of raw messages it yields
before closing. -/
structure Stream where
  Messages : List RawTweet
deriving DecidableEq

/-- The mutable fields of the `Twitter` struct: whether a callback is
registered (`t.cb != nil`), the filter, and the subscription handle
(`t.stream`, present iff the session is Running).  The authenticated
`client` is an external collaborator and appears only through the
outcomes of its calls. -/
structure Twitter where
  cb : Bool
  filter : Option Filter
  stream : Option Stream
deriving DecidableEq

/-- The distinct error values returned by `NewTwitter`:
`ErrNoAuth`, `ErrEmptyFilter`, and the wrapped authentication failure
(`xerrors.Errorf("cannot authenticate to Twitter: %w", err)`). -/
inductive NewTwitterErr where
  | noAuth
  | emptyFilter
  | authFailed (e : TransportErr)
deriving DecidableEq

/-- Outcome of a `NewTwitter` call: its return value together with the
number of network round-trips it performed. -/
structure NewTwitterOutcome where
  result : Except NewTwitterErr Twitter
  networkCalls : Nat

/-- The guard `f == nil || len(f.Keywords) == 0` of `NewTwitter`. -/
def filterEmpty : Option Filter → Bool
  | none => true
  | some fl => fl.Keywords.length == 0

/-- `NewTwitter` (lines 152-169).  `verify` is the outcome of the one
network call, `Accounts.VerifyCredentials`; building the oauth config and
client (lines 159-165) performs no network traffic, so `networkCalls`
counts only the verification round-trip. -/
def newTwitter (f : Option Filter) (a : Option Credentials)
    (verify : Except TransportErr Unit) : NewTwitterOutcome :=
  match a with
  | none => ⟨Except.error NewTwitterErr.noAuth, 0⟩
  | some _ =>
    if filterEmpty f then ⟨Except.error NewTwitterErr.emptyFilter, 0⟩
    else
      match verify with
      | Except.error e => ⟨Except.error (NewTwitterErr.authFailed e), 1⟩
      | Except.ok _ => ⟨Except.ok { cb := false, filter := f, stream := none }, 1⟩

/-- Claim C5: `NewTwitter` with nil credentials returns `ErrNoAuth`, and
with credentials supplied but a nil filter or an empty keyword list it
returns `ErrEmptyFilter`; in both cases it performs zero network calls
(the `VerifyCredentials` round-trip is never reached) and returns no
session object. -/
theorem newTwitter_config_errors (f : Option Filter) (a : Option Credentials)
    (verify : Except TransportErr Unit) :
    newTwitter f none verify = ⟨Except.error NewTwitterErr.noAuth, 0⟩ ∧
    (a ≠ none → filterEmpty f = true →
      newTwitter f a verify = ⟨Except.error NewTwitterErr.emptyFilter, 0⟩) := by
  constructor
  · rfl
  · intro ha hf
    cases a with
    | none => exact absurd rfl ha
    | some c => simp [newTwitter, hf]

/-- Concrete credentials for the C5 and lifecycle witnesses. -/
def cred0 : Credentials :=
  { AccessKey := gs "ak", ConsumerKey := gs "ck",
    AccessSecret := gs "as", ConsumerSecret := gs "cs" }

/-- A filter value with an empty keyword list. -/
def noKeywordFilter : Filter :=
  { Language := [], Keywords := [], OnlyUsers := [],
    BlockedUsers := [], BlockedWords := [] }

theorem newTwitter_config_errors_witness :
    newTwitter none none (Except.ok ()) = ⟨Except.error NewTwitterErr.noAuth, 0⟩ ∧
    newTwitter none (some cred0) (Except.ok ())
        = ⟨Except.error NewTwitterErr.emptyFilter, 0⟩ ∧
    newTwitter (some noKeywordFilter) (some cred0) (Except.ok ())
        = ⟨Except.error NewTwitterErr.emptyFilter, 0⟩ :=
  ⟨(newTwitter_config_errors none (some cred0) (Except.ok ())).1,
    (newTwitter_config_errors none (some cred0) (Except.ok ())).2
      (fun h => Option.noConfusion h) rfl,
    (newTwitter_config_errors (some noKeywordFilter) (some cred0) (Except.ok ())).2
      (fun h => Option.noConfusion h) rfl⟩

/-- The distinct error values `Twitter.Start` can return:
`ErrAlreadyStarted`, and the wrapped subscription-open failure
(`xerrors.Errorf("unable to start Twitter filter: %w", err)`). -/
inductive StartErr where
  | alreadyStarted
  | filterFailed (e : TransportErr)
deriving DecidableEq

/-- Outcome of a `Twitter.Start` call: the returned error (`none` models
a `nil` return), the session state after the call, whether
`client.Streams.Filter` was invoked, and how many background receive
loops the call launched. -/
structure StartOutcome where
  ret : Option StartErr
  state : Twitter
  opened : Bool
  loopsLaunched : Nat
deriving DecidableEq

/-- `Twitter.Start` (lines 71-93), with the outcome of the one
`client.Streams.Filter` call supplied as `openRes`.  The guard
`t.stream != nil` returns `ErrAlreadyStarted` before anything else; an
open failure is returned wrapped with the state untouched; on success the
handle is stored and exactly one background loop is launched. -/
def start (t : Twitter) (openRes : Except TransportErr Stream) : StartOutcome :=
  if t.stream.isSome then ⟨some StartErr.alreadyStarted, t, false, 0⟩
  else
    match openRes with
    | Except.error e => ⟨some (StartErr.filterFailed e), t, true, 0⟩
    | Except.ok s => ⟨none, { t with stream := some s }, true, 1⟩

/-- `Twitter.Stop` (lines 63-67): it only signals the stream to
terminate (when one is present); it does not itself clear `t.stream`.
The returned flag records whether `stream.Stop()` was invoked. -/
def stop (t : Twitter) : Twitter × Bool :=
  if t.stream.isSome then (t, true) else (t, false)

/-- The records the background loop's demux hands to the callback for
one raw message: the built record when the filter passes and a callback
is registered, nothing otherwise. -/
def dispatchOne (t : Twitter) (m : RawTweet) : List Tweet :=
  match receive t.filter m with
  | some r => if t.cb then [r] else []
  | none => []

/-- The background receive loop launched by `Start` (lines 86-91): it
handles each message the channel yields, and when the channel closes
(whether `Stop` closed it or the upstream ended the stream) it executes
`x.stream = nil`.  Returns the session state after the loop exits and
the records dispatched to the callback, in order. -/
def loopRun (t : Twitter) : List RawTweet → List Tweet → Twitter × List Tweet
  | [], acc => ({ t with stream := none }, acc)
  | m :: rest, acc => loopRun t rest (acc ++ dispatchOne t m)

/-- Claim C6: if a subscription handle is present, `Start` returns the
distinct `ErrAlreadyStarted`, opens no new subscription, launches no
loop, and leaves the state (including the handle) unchanged; hence a
second `Start` without an intervening `Stop` or upstream closure fails. -/
theorem start_already_started (t : Twitter) (openRes : Except TransportErr Stream) :
    (∀ s, t.stream = some s →
      start t openRes = ⟨some StartErr.alreadyStarted, t, false, 0⟩) ∧
    (t.stream = none → ∀ s,
      start ((start t (Except.ok s)).state) openRes
        = ⟨some StartErr.alreadyStarted, (start t (Except.ok s)).state, false, 0⟩) := by
  constructor
  · intro s hs
    simp [start, hs]
  · intro hn s
    have h1 : (start t (Except.ok s)).state = { t with stream := some s } := by
      simp [start, hn]
    rw [h1]
    simp [start]

/-- A concrete idle session and a concrete stream for the lifecycle
witnesses. -/
def twIdle : Twitter := { cb := false, filter := none, stream := none }

def stream0 : Stream := { Messages := [photoVideoTweet] }

def twRunning : Twitter := { cb := false, filter := none, stream := some stream0 }

theorem start_already_started_witness :
    start twRunning (Except.ok stream0)
        = ⟨some StartErr.alreadyStarted, twRunning, false, 0⟩ ∧
    start ((start twIdle (Except.ok stream0)).state) (Except.ok stream0)
        = ⟨some StartErr.alreadyStarted, (start twIdle (Except.ok stream0)).state,
            false, 0⟩ :=
  ⟨(start_already_started twRunning (Except.ok stream0)).1 stream0 rfl,
    (start_already_started twIdle (Except.ok stream0)).2 rfl stream0⟩

/-- Claim C7: when the session is idle and opening the subscription
fails, `Start` returns the wrapped transport error, the state is
unchanged (no handle stored, no loop launched), and a subsequent `Start`
is legal (it is not rejected with `ErrAlreadyStarted`). -/
theorem start_open_failure (t : Twitter) (e : TransportErr) (s : Stream)
    (h : t.stream = none) :
    start t (Except.error e) = ⟨some (StartErr.filterFailed e), t, true, 0⟩ ∧
    (start t (Except.error e)).state.stream = none ∧
    (start ((start t (Except.error e)).state) (Except.ok s)).ret = none := by
  have h1 : start t (Except.error e) = ⟨some (StartErr.filterFailed e), t, true, 0⟩ := by
    simp [start, h]
  refine ⟨h1, ?_, ?_⟩
  · rw [h1]
    exact h
  · rw [h1]
    simp [start, h]

theorem start_open_failure_witness :
    start twIdle (Except.error 42) = ⟨some (StartErr.filterFailed 42), twIdle, true, 0⟩ ∧
    (start twIdle (Except.error 42)).state.stream = none ∧
    (start ((start twIdle (Except.error 42)).state) (Except.ok stream0)).ret = none :=
  start_open_failure twIdle 42 stream0 rfl

theorem loopRun_state (t : Twitter) (ms : List RawTweet) (acc : List Tweet) :
    (loopRun t ms acc).1 = { t with stream := none } := by
  induction ms generalizing acc with
  | nil => rfl
  | cons m rest ih => exact ih (acc ++ dispatchOne t m)

/-- Claim C8: whenever the subscription's message channel closes —
after yielding any finite sequence of messages, whether `Stop` or the
upstream closed it — the background loop exits having cleared the stored
subscription handle (`x.stream = nil`), returning the session to Idle
with its other fields intact; it is never left Running after the loop
has finished. -/
theorem loop_clears_stream (t : Twitter) (ms : List RawTweet) :
    (loopRun t ms []).1 = { t with stream := none } :=
  loopRun_state t ms []

/-!
Interleaving model for concurrent `Start` calls.  `Twitter.Start` has no
lock, mutex or atomic around `t.stream`: the guard `if t.stream != nil`
(line 72), the subscription open (line 75) and the store `t.stream = s`
(line 83) are three separate program points operating on a plain struct
field.  The model below runs two `Start` calls as threads whose steps on
those program points interleave according to a schedule (this is the
sequentially consistent interleaving semantics — already under it, more
generous than Go's memory model for racy programs, the check-and-set is
not atomic).  Opening a subscription always succeeds here and hands out
fresh handle numbers `1, 2, ...`. -/

/-- Program points of one `Start` call in the race model. -/
inductive StartPC where
  | checkStream
  | openStream
  | storeStream
  | retAlready
  | retOk
deriving DecidableEq

/-- One thread executing `Start`: its program point and the handle its
`Streams.Filter` call returned (0 until it has opened). -/
structure StartThread where
  pc : StartPC
  handle : Nat
deriving DecidableEq

/-- Shared state of the race: the `t.stream` field visible to both
threads (by handle number), the two threads, and how many subscriptions
have been opened upstream. -/
structure RaceState where
  shared : Option Nat
  thr1 : StartThread
  thr2 : StartThread
  opens : Nat
deriving DecidableEq

/-- One step of one thread of the race model, mirroring the statements
of `Start`: the nil-check branches to return-already-started or to the
open; the open obtains a fresh handle; the store writes the handle into
the shared field. -/
def stepThread (shared : Option Nat) (opens : Nat) (th : StartThread) :
    Option Nat × Nat × StartThread :=
  match th.pc with
  | StartPC.checkStream =>
    match shared with
    | some _ => (shared, opens, { th with pc := StartPC.retAlready })
    | none => (shared, opens, { th with pc := StartPC.openStream })
  | StartPC.openStream =>
    (shared, opens + 1, { pc := StartPC.storeStream, handle := opens + 1 })
  | StartPC.storeStream => (some th.handle, opens, { th with pc := StartPC.retOk })
  | StartPC.retAlready => (shared, opens, th)
  | StartPC.retOk => (shared, opens, th)

/-- Advance the race by one step of thread 1 (`true`) or thread 2
(`false`). -/
def raceStep (s : RaceState) (who : Bool) : RaceState :=
  if who then
    match stepThread s.shared s.opens s.thr1 with
    | (sh, op, th) => { shared := sh, thr1 := th, thr2 := s.thr2, opens := op }
  else
    match stepThread s.shared s.opens s.thr2 with
    | (sh, op, th) => { shared := sh, thr1 := s.thr1, thr2 := th, opens := op }

/-- Run the race model under a schedule. -/
def raceRun (s : RaceState) (sched : List Bool) : RaceState :=
  sched.foldl raceStep s

/-- Both `Start` calls begin at the nil-check with the session Idle. -/
def raceInit : RaceState :=
  { shared := none, thr1 := ⟨StartPC.checkStream, 0⟩,
    thr2 := ⟨StartPC.checkStream, 0⟩, opens := 0 }

/-- The schedule on which the check-then-store race fires: both threads
pass the nil-check before either stores its handle. -/
def raceSched : List Bool := [true, false, true, true, false, false]

/-- Claim C9 is violated by the code: under the schedule where two
`Start` calls both execute the `t.stream != nil` check before either
stores, both calls open a subscription (`opens = 2`) and both return
`nil` success; the second store then overwrites the first handle, whose
subscription and loop are orphaned.  The check and the store are not
atomic with respect to concurrent `Start` calls. -/
theorem start_race_both_open :
    (raceRun raceInit raceSched).opens = 2 ∧
    (raceRun raceInit raceSched).thr1.pc = StartPC.retOk ∧
    (raceRun raceInit raceSched).thr2.pc = StartPC.retOk ∧
    (raceRun raceInit raceSched).shared = some 2 := by
  decide

end web
